import Mathlib

/-!
Verification of the AQI computation and historical-feature pipeline of the
Air Quality Prediction service (src/api/main.py).

Modelling conventions of the shallow embedding:
- Python floats are modelled as rationals, so every breakpoint constant
  (12, 35.4, 55.4, 150.4, 250.4 and so on) is exact.
- Where IEEE special values matter (NaN and infinities in comparisons),
  a dedicated type PyFloat with IEEE comparison semantics is used.
- datetime values are abstracted: a Timestamp carries the calendar fields
  the code reads (hour, weekday, month, year); subtraction of whole hours
  from the current time is a parameter of type Int to Timestamp giving the
  timestamp that many hours before the current time.
- math.sin and math.cos are abstracted as parameters s c of type Rat to Rat,
  where s x stands for sin (2 * pi * x) and c x for cos (2 * pi * x).
- np.random.random is modelled as an explicit stream of draws, a parameter
  of type Nat to Rat giving the i-th draw.
-/

/-- The calendar fields of a datetime that create_time_features reads:
hour, weekday, month and year. -/
structure Timestamp where
  hour : ℕ
  dayofweek : ℕ
  month : ℕ
  year : Int
  deriving Repr, DecidableEq

/-- Pydantic model HourlyData of src/api/main.py: one hourly observation.
A timestamp of none models Python None (or an unparseable string). -/
structure HourlyData where
  CO : ℚ
  NO2 : ℚ
  SO2 : ℚ
  O3 : ℚ
  PM25 : ℚ
  PM10 : ℚ
  AQI : ℚ
  timestamp : Option Timestamp
  deriving Repr, DecidableEq

/-- The PM2.5 piecewise-linear sub-index of calculate_aqi_from_pollutants
(src/api/main.py lines 213 to 224), factored out as the if-elif chain of
the source. -/
def pm25_sub_index (pm25 : ℚ) : ℚ :=
  if pm25 ≤ 12 then (50 / 12) * pm25
  else if pm25 ≤ 35.4 then 51 + ((100 - 51) / (35.4 - 12)) * (pm25 - 12)
  else if pm25 ≤ 55.4 then 101 + ((150 - 101) / (55.4 - 35.4)) * (pm25 - 35.4)
  else if pm25 ≤ 150.4 then 151 + ((200 - 151) / (150.4 - 55.4)) * (pm25 - 55.4)
  else if pm25 ≤ 250.4 then 201 + ((300 - 201) / (250.4 - 150.4)) * (pm25 - 150.4)
  else 301 + ((500 - 301) / (500 - 250.4)) * min (pm25 - 250.4) 249.6

/-- calculate_aqi_from_pollutants (src/api/main.py lines 193 to 234).
pm10 is accepted and ignored, exactly as in the source. -/
def calculate_aqi_from_pollutants (pm25 pm10 o3 no2 so2 co : ℚ) : ℚ :=
  let pm25_aqi := pm25_sub_index pm25
  let o3_factor := min (o3 / 200) 1 * 30
  let no2_factor := min (no2 / 100) 1 * 20
  let so2_factor := min (so2 / 20) 1 * 15
  let co_factor := min (co / 1000) 1 * 10
  let total_aqi := pm25_aqi + o3_factor + no2_factor + so2_factor + co_factor
  min (max total_aqi 0) 500

/-- get_aqi_category (src/api/main.py lines 1305 to 1326) on finite values. -/
def get_aqi_category (aqi_value : ℚ) : String :=
  if aqi_value ≤ 50 then "Good"
  else if aqi_value ≤ 100 then "Moderate"
  else if aqi_value ≤ 150 then "Unhealthy for Sensitive Groups"
  else if aqi_value ≤ 200 then "Unhealthy"
  else if aqi_value ≤ 300 then "Very Unhealthy"
  else "Hazardous"

/-- A Python float as the comparisons of the code see it: a finite value,
NaN, or an infinity. -/
inductive PyFloat where
  | val (q : ℚ)
  | nan
  | inf
  | neginf
  deriving Repr, DecidableEq

/-- IEEE-754 less-or-equal on Python floats: any comparison with NaN is
false; minus infinity is below everything else; infinity is above. -/
def PyFloat.le : PyFloat → PyFloat → Bool
  | .nan, _ => false
  | _, .nan => false
  | .neginf, _ => true
  | _, .neginf => false
  | _, .inf => true
  | .inf, _ => false
  | .val a, .val b => decide (a ≤ b)

/-- get_aqi_category (src/api/main.py lines 1305 to 1326) with the float
comparison semantics Python actually evaluates the if-elif chain under. -/
def get_aqi_category_float (aqi_value : PyFloat) : String :=
  if aqi_value.le (.val 50) then "Good"
  else if aqi_value.le (.val 100) then "Moderate"
  else if aqi_value.le (.val 150) then "Unhealthy for Sensitive Groups"
  else if aqi_value.le (.val 200) then "Unhealthy"
  else if aqi_value.le (.val 300) then "Very Unhealthy"
  else "Hazardous"

/-- On finite inputs the float-semantics category agrees with the rational
model. -/
theorem get_aqi_category_float_val (q : ℚ) :
    get_aqi_category_float (.val q) = get_aqi_category q := by
  simp only [get_aqi_category_float, get_aqi_category, PyFloat.le]
  split_ifs with h1 h2 h3 h4 h5 <;> simp_all

set_option maxHeartbeats 2000000 in
/-- The PM2.5 sub-index is monotone: within each breakpoint band the slope
is positive, and at each band boundary the index jumps upward
(50 to 51, 100 to 101, 150 to 151, 200 to 201, 300 to 301). -/
theorem pm25_sub_index_mono {a b : ℚ} (hab : a ≤ b) :
    pm25_sub_index a ≤ pm25_sub_index b := by
  unfold pm25_sub_index
  rw [min_def, min_def]
  split_ifs <;> linarith

/-- C1: the claim states calculate_aqi_from_pollutants(400, 400, 0, 0, 0, 0)
returns 500. It does not: 400 lies inside the top band 250.4 to 500, which
is mapped linearly, giving 131125/312, about 420.28. -/
theorem C1_counterexample :
    calculate_aqi_from_pollutants 400 400 0 0 0 0 ≠ 500 := by
  norm_num [calculate_aqi_from_pollutants, pm25_sub_index, min_def, max_def]

/-- C1 amended: a PM2.5 concentration of 400 falls inside the top
breakpoint band and maps linearly to 131125/312, about 420.28; the cap at
index 500 is only reached from concentration 500 upward. -/
theorem C1_amended :
    calculate_aqi_from_pollutants 400 400 0 0 0 0 = 131125 / 312 ∧
    calculate_aqi_from_pollutants 500 400 0 0 0 0 = 500 := by
  constructor <;>
    norm_num [calculate_aqi_from_pollutants, pm25_sub_index, min_def, max_def]

/-- C5: for non-negative pollutant inputs the calculator output lies in
[0, 500], and holding pm10, o3, no2, so2, co fixed it is monotonically
non-decreasing in pm25, across all breakpoint bands and through the
top-band cap. -/
theorem C5_range_and_mono (pm25 pm25' pm10 o3 no2 so2 co : ℚ)
    (h25 : 0 ≤ pm25) (h10 : 0 ≤ pm10) (ho3 : 0 ≤ o3) (hno2 : 0 ≤ no2)
    (hso2 : 0 ≤ so2) (hco : 0 ≤ co) (hle : pm25 ≤ pm25') :
    (0 ≤ calculate_aqi_from_pollutants pm25 pm10 o3 no2 so2 co ∧
      calculate_aqi_from_pollutants pm25 pm10 o3 no2 so2 co ≤ 500) ∧
    calculate_aqi_from_pollutants pm25 pm10 o3 no2 so2 co ≤
      calculate_aqi_from_pollutants pm25' pm10 o3 no2 so2 co := by
  refine ⟨⟨?_, ?_⟩, ?_⟩
  · exact le_min (le_max_right _ 0) (by norm_num)
  · exact min_le_right _ 500
  · have hmono := pm25_sub_index_mono hle
    simp only [calculate_aqi_from_pollutants]
    exact min_le_min (max_le_max (by linarith) le_rfl) le_rfl

/-- Witness for C5 at pm25 = 1, pm25 bumped to 2, all other pollutants 0. -/
theorem C5_witness :
    (0 ≤ calculate_aqi_from_pollutants 1 0 0 0 0 0 ∧
      calculate_aqi_from_pollutants 1 0 0 0 0 0 ≤ 500) ∧
    calculate_aqi_from_pollutants 1 0 0 0 0 0 ≤
      calculate_aqi_from_pollutants 2 0 0 0 0 0 :=
  C5_range_and_mono 1 2 0 0 0 0 0 (by norm_num) (by norm_num) (by norm_num)
    (by norm_num) (by norm_num) (by norm_num) (by norm_num)

/-- C7: get_aqi_category labels exactly by the fixed thresholds, with 50
mapping to Good and 50.1 to Moderate. -/
theorem C7_category_thresholds (v : ℚ) :
    (get_aqi_category v = "Good" ↔ v ≤ 50) ∧
    (get_aqi_category v = "Moderate" ↔ 50 < v ∧ v ≤ 100) ∧
    (get_aqi_category v = "Unhealthy for Sensitive Groups" ↔ 100 < v ∧ v ≤ 150) ∧
    (get_aqi_category v = "Unhealthy" ↔ 150 < v ∧ v ≤ 200) ∧
    (get_aqi_category v = "Very Unhealthy" ↔ 200 < v ∧ v ≤ 300) ∧
    (get_aqi_category v = "Hazardous" ↔ 300 < v) ∧
    get_aqi_category 50 = "Good" ∧ get_aqi_category 50.1 = "Moderate" := by
  refine ⟨?_, ?_, ?_, ?_, ?_, ?_, by norm_num [get_aqi_category],
    by norm_num [get_aqi_category]⟩ <;>
  · unfold get_aqi_category
    split_ifs <;> simp_all <;> (intros; try constructor) <;> linarith

/-- C10: under float comparison semantics, get_aqi_category is total with
exactly six possible labels, and any input every threshold comparison
rejects, NaN included, falls through to Hazardous. -/
theorem C10_float_total (v : PyFloat) :
    (get_aqi_category_float v = "Good" ∨ get_aqi_category_float v = "Moderate" ∨
      get_aqi_category_float v = "Unhealthy for Sensitive Groups" ∨
      get_aqi_category_float v = "Unhealthy" ∨
      get_aqi_category_float v = "Very Unhealthy" ∨
      get_aqi_category_float v = "Hazardous") ∧
    ((v.le (.val 50) = false ∧ v.le (.val 100) = false ∧
      v.le (.val 150) = false ∧ v.le (.val 200) = false ∧
      v.le (.val 300) = false) → get_aqi_category_float v = "Hazardous") := by
  unfold get_aqi_category_float
  split_ifs <;> simp_all

/-- Witness for C10: NaN compares false against every threshold and is
labeled Hazardous. -/
theorem C10_witness : get_aqi_category_float PyFloat.nan = "Hazardous" :=
  (C10_float_total PyFloat.nan).2 (by decide)

/-- Python round to the nearest integer with ties going to the even
integer, on exact rationals. -/
def round_half_even (x : ℚ) : Int :=
  let f := ⌊x⌋
  let r := x - f
  if r < 1 / 2 then f
  else if 1 / 2 < r then f + 1
  else if Even f then f else f + 1

/-- Python round(x, 2) on exact rationals. -/
def python_round2 (x : ℚ) : ℚ :=
  (round_half_even (100 * x) : ℚ) / 100

/-- One horizon entry of the JSON response of predict_aqi,
predict_xgboost_optimized and predict_live: the rounded AQI and its
category. -/
structure HorizonResult where
  aqi : ℚ
  category : String
  deriving Repr, DecidableEq

/-- How every prediction endpoint of src/api/main.py publishes one horizon
value p: aqi is round(p, 2) and the category is computed on the unrounded
value (lines 1042 to 1053 and 942 to 954). No clamping is applied. -/
def make_horizon_result (p : ℚ) : HorizonResult :=
  { aqi := python_round2 p, category := get_aqi_category p }

/-- The three-horizon payload built by predict_aqi (src/api/main.py lines
1039 to 1057) from the three backend outputs. -/
def predict_aqi_results (p8 p12 p24 : ℚ) :
    HorizonResult × HorizonResult × HorizonResult :=
  (make_horizon_result p8, make_horizon_result p12, make_horizon_result p24)

/-- The two backend output shapes predict_xgboost_optimized distinguishes
(src/api/main.py lines 918 to 928): a single scalar, or an array of
per-hour predictions. -/
inductive BackendOutput where
  | scalar (p : ℚ)
  | array (xs : List ℚ)
  deriving Repr

/-- The 24 hourly predictions predict_xgboost_optimized derives from the
backend output (src/api/main.py lines 918 to 928): a scalar is spread over
hours 1 to 24 with the growth factor 1 + 0.02 * hour; an array is cut to
its first 24 entries. -/
def hourly_predictions : BackendOutput → List ℚ
  | .scalar p => (List.range 24).map (fun (h : ℕ) => p * (1 + ((h : ℚ) + 1) * 0.02))
  | .array xs => xs.take 24

/-- The widget extraction of predict_xgboost_optimized (src/api/main.py
lines 930 to 934): entries at zero-based indices 7, 11 and 23; a too-short
array makes the Python indexing raise, modelled as none. -/
def predicted_horizons (o : BackendOutput) : Option (ℚ × ℚ × ℚ) :=
  let hp := hourly_predictions o
  match hp[7]?, hp[11]?, hp[23]? with
  | some a, some b, some c => some (a, b, c)
  | _, _, _ => none

/-- C6: a scalar backend output p yields horizon predictions
p * (1 + 0.02 * 8), p * (1 + 0.02 * 12), p * (1 + 0.02 * 24); an array of
at least 24 per-hour values yields its entries at zero-based indices
7, 11 and 23. -/
theorem C6_backend_shapes :
    (∀ p : ℚ, predicted_horizons (.scalar p) =
      some (p * (1 + 0.02 * 8), p * (1 + 0.02 * 12), p * (1 + 0.02 * 24))) ∧
    (∀ (xs : List ℚ) (h : 24 ≤ xs.length),
      predicted_horizons (.array xs) =
        some (xs.get ⟨7, by omega⟩, xs.get ⟨11, by omega⟩, xs.get ⟨23, by omega⟩)) := by
  constructor
  · intro p
    simp only [predicted_horizons, hourly_predictions, List.getElem?_map,
      List.getElem?_range (by norm_num : (7:ℕ) < 24),
      List.getElem?_range (by norm_num : (11:ℕ) < 24),
      List.getElem?_range (by norm_num : (23:ℕ) < 24), Option.map_some]
    norm_num
  · intro xs h
    have h7 : (7:ℕ) < xs.length := by omega
    have h11 : (11:ℕ) < xs.length := by omega
    have h23 : (23:ℕ) < xs.length := by omega
    simp only [predicted_horizons, hourly_predictions,
      List.getElem?_take_of_lt (by norm_num : (7:ℕ) < 24),
      List.getElem?_take_of_lt (by norm_num : (11:ℕ) < 24),
      List.getElem?_take_of_lt (by norm_num : (23:ℕ) < 24),
      List.getElem?_eq_getElem h7, List.getElem?_eq_getElem h11,
      List.getElem?_eq_getElem h23, List.get_eq_getElem]

/-- Witness for C6 on the array branch, at the concrete array 0, 1, ..., 23. -/
theorem C6_witness :
    predicted_horizons (.array ((List.range 24).map (fun (n : ℕ) => (n : ℚ)))) =
      some (7, 11, 23) := by
  have h : 24 ≤ ((List.range 24).map (fun (n : ℕ) => (n : ℚ))).length := by
    simp
  rw [C6_backend_shapes.2 ((List.range 24).map (fun (n : ℕ) => (n : ℚ))) h]
  norm_num [List.get_eq_getElem]

/-- Rounding half to even never goes below the floor. -/
theorem floor_le_round_half_even (x : ℚ) : ⌊x⌋ ≤ round_half_even x := by
  unfold round_half_even
  dsimp only
  split_ifs <;> omega

/-- Rounding half to even never goes above the ceiling. -/
theorem round_half_even_le_ceil (x : ℚ) : round_half_even x ≤ ⌈x⌉ := by
  unfold round_half_even
  dsimp only
  split_ifs with h1 h2 h3
  · exact Int.floor_le_ceil x
  · have hx : (⌊x⌋ : ℚ) < x := by linarith
    have h4 : ⌊x⌋ < ⌈x⌉ := by
      rw [Int.lt_ceil]
      exact hx
    omega
  · exact Int.floor_le_ceil x
  · have hx : (⌊x⌋ : ℚ) < x := by linarith
    have h4 : ⌊x⌋ < ⌈x⌉ := by
      rw [Int.lt_ceil]
      exact hx
    omega

/-- round(x, 2) stays within [0, 500] when x does. -/
theorem python_round2_bounds {x : ℚ} (h0 : 0 ≤ x) (h1 : x ≤ 500) :
    0 ≤ python_round2 x ∧ python_round2 x ≤ 500 := by
  have hf : (0 : Int) ≤ ⌊100 * x⌋ := Int.floor_nonneg.mpr (by linarith)
  have hl := floor_le_round_half_even (100 * x)
  have hc := round_half_even_le_ceil (100 * x)
  have hcu : ⌈100 * x⌉ ≤ (50000 : Int) := Int.ceil_le.mpr (by push_cast; linarith)
  constructor
  · unfold python_round2
    have hq : (0 : ℚ) ≤ (round_half_even (100 * x) : ℚ) := by
      exact_mod_cast le_trans hf hl
    positivity
  · unfold python_round2
    have hq : (round_half_even (100 * x) : ℚ) ≤ 50000 := by
      exact_mod_cast le_trans hc hcu
    linarith

/-- C3: the claim states the adapter clamps each horizon value to [0, 500].
It does not: a backend output of 600 is published as aqi 600. -/
theorem C3_counterexample :
    ¬ ((predict_aqi_results 600 600 600).1.aqi ≤ 500) := by
  norm_num [predict_aqi_results, make_horizon_result, python_round2,
    round_half_even]

/-- C3 amended: the adapter applies no clamping. Each published horizon
aqi is exactly the backend value rounded to two decimals, the category is
computed from the unrounded value, and whenever a backend horizon value
lies in [0, 500] the published aqi also lies in [0, 500]. -/
theorem C3_amended (p8 p12 p24 : ℚ)
    (h8a : 0 ≤ p8) (h8b : p8 ≤ 500) (h12a : 0 ≤ p12) (h12b : p12 ≤ 500)
    (h24a : 0 ≤ p24) (h24b : p24 ≤ 500) :
    ((predict_aqi_results p8 p12 p24).1.aqi = python_round2 p8 ∧
      (predict_aqi_results p8 p12 p24).2.1.aqi = python_round2 p12 ∧
      (predict_aqi_results p8 p12 p24).2.2.aqi = python_round2 p24) ∧
    ((predict_aqi_results p8 p12 p24).1.category = get_aqi_category p8 ∧
      (predict_aqi_results p8 p12 p24).2.1.category = get_aqi_category p12 ∧
      (predict_aqi_results p8 p12 p24).2.2.category = get_aqi_category p24) ∧
    (0 ≤ (predict_aqi_results p8 p12 p24).1.aqi ∧
      (predict_aqi_results p8 p12 p24).1.aqi ≤ 500) ∧
    (0 ≤ (predict_aqi_results p8 p12 p24).2.1.aqi ∧
      (predict_aqi_results p8 p12 p24).2.1.aqi ≤ 500) ∧
    (0 ≤ (predict_aqi_results p8 p12 p24).2.2.aqi ∧
      (predict_aqi_results p8 p12 p24).2.2.aqi ≤ 500) :=
  ⟨⟨rfl, rfl, rfl⟩, ⟨rfl, rfl, rfl⟩,
    python_round2_bounds h8a h8b, python_round2_bounds h12a h12b,
    python_round2_bounds h24a h24b⟩

/-- Witness for C3 amended at backend values 123.456, 0 and 500. -/
theorem C3_witness :
    ((predict_aqi_results 123.456 0 500).1.aqi = python_round2 123.456 ∧
      (predict_aqi_results 123.456 0 500).2.1.aqi = python_round2 0 ∧
      (predict_aqi_results 123.456 0 500).2.2.aqi = python_round2 500) ∧
    ((predict_aqi_results 123.456 0 500).1.category =
        get_aqi_category 123.456 ∧
      (predict_aqi_results 123.456 0 500).2.1.category = get_aqi_category 0 ∧
      (predict_aqi_results 123.456 0 500).2.2.category =
        get_aqi_category 500) ∧
    (0 ≤ (predict_aqi_results 123.456 0 500).1.aqi ∧
      (predict_aqi_results 123.456 0 500).1.aqi ≤ 500) ∧
    (0 ≤ (predict_aqi_results 123.456 0 500).2.1.aqi ∧
      (predict_aqi_results 123.456 0 500).2.1.aqi ≤ 500) ∧
    (0 ≤ (predict_aqi_results 123.456 0 500).2.2.aqi ∧
      (predict_aqi_results 123.456 0 500).2.2.aqi ≤ 500) :=
  C3_amended 123.456 0 500 (by norm_num) (by norm_num) (by norm_num)
    (by norm_num) (by norm_num) (by norm_num)

/-- create_time_features (src/api/main.py lines 410 to 436). The parameters
s and c stand for the maps x to sin (2 * pi * x) and x to cos (2 * pi * x),
so s (hour / 24) is the hour_sin of the source, and so on. -/
def create_time_features (s c : ℚ → ℚ) (t : Timestamp) : List ℚ :=
  let hour_sin := s ((t.hour : ℚ) / 24)
  let hour_cos := c ((t.hour : ℚ) / 24)
  let dayofweek_sin := s ((t.dayofweek : ℚ) / 7)
  let dayofweek_cos := c ((t.dayofweek : ℚ) / 7)
  let month_sin := s ((t.month : ℚ) / 12)
  let month_cos := c ((t.month : ℚ) / 12)
  let year_norm := ((t.year : ℚ) - 2020) / 5
  let is_weekend : ℚ := if 5 ≤ t.dayofweek then 1 else 0
  let is_rush : ℚ :=
    if t.dayofweek < 5 ∧ ((7 ≤ t.hour ∧ t.hour ≤ 9) ∨ (17 ≤ t.hour ∧ t.hour ≤ 19))
    then 1 else 0
  let rush_weekday := is_rush * (1 - is_weekend)
  [hour_sin, hour_cos, dayofweek_sin, dayofweek_cos, month_sin, month_cos,
    year_norm, is_weekend, is_rush, rush_weekday]

/-- The padding stage of process_historical_data (src/api/main.py lines
594 to 626). rand is the stream of np.random.random() draws; draw i gives
variation 0.9 + 0.2 * rand i. Python inserts each synthetic row at
position 0, so the synthetic block ends up in reverse draw order before
the real data; an empty input is padded with 48 constant default rows. -/
def pad_historical_data (rand : ℕ → ℚ) (historical_data : List HourlyData) :
    List HourlyData :=
  if historical_data.length < 48 then
    if 0 < historical_data.length then
      match historical_data.getLast? with
      | some latest_data =>
        ((List.range (48 - historical_data.length)).map (fun (i : ℕ) =>
          let variation := 0.9 + 0.2 * rand i
          ({ CO := latest_data.CO * variation
             NO2 := latest_data.NO2 * variation
             SO2 := latest_data.SO2 * variation
             O3 := latest_data.O3 * variation
             PM25 := latest_data.PM25 * variation
             PM10 := latest_data.PM10 * variation
             AQI := latest_data.AQI * variation
             timestamp := none } : HourlyData))).reverse ++ historical_data
      | none => historical_data
    else
      List.replicate 48
        ({ CO := 0.5, NO2 := 25, SO2 := 8, O3 := 45,
           PM25 := 20, PM10 := 35, AQI := 65, timestamp := none } : HourlyData)
  else historical_data

/-- The lag read aqi_1h_ago of src/api/main.py lines 653 to 656: the AQI of
padded_data at i - 1 when i > 0, else of the current row. The getD default
is never reached for in-range i. -/
def aqi_1h_ago (padded : List HourlyData) (i : ℕ) (hour_data : HourlyData) : ℚ :=
  if 0 < i then (padded.getD (i - 1) hour_data).AQI else hour_data.AQI

/-- The lag read aqi_24h_ago of src/api/main.py lines 658 to 663. -/
def aqi_24h_ago (padded : List HourlyData) (i : ℕ) (hour_data : HourlyData) : ℚ :=
  if 24 ≤ i then (padded.getD (i - 24) hour_data).AQI else hour_data.AQI

/-- The lag read pm25_24h_ago of src/api/main.py lines 658 to 663. -/
def pm25_24h_ago (padded : List HourlyData) (i : ℕ) (hour_data : HourlyData) : ℚ :=
  if 24 ≤ i then (padded.getD (i - 24) hour_data).PM25 else hour_data.PM25

/-- recent_aqi of src/api/main.py lines 666 to 667: the AQI values of
padded_data from max(0, i - 23) up to i. -/
def recent_aqi (padded : List HourlyData) (i : ℕ) (hour_data : HourlyData) :
    List ℚ :=
  (List.range' (max 0 (i - 23)) (i + 1 - max 0 (i - 23))).map
    (fun j => (padded.getD j hour_data).AQI)

/-- The denominator of the AQI trend feature, src/api/main.py line 669:
max(aqi_1h_ago, 1). -/
def aqi_trend_denom (padded : List HourlyData) (i : ℕ) (hour_data : HourlyData) : ℚ :=
  max (aqi_1h_ago padded i hour_data) 1

/-- The denominator of the PM2.5 / PM10 ratio feature, src/api/main.py
line 670: max(PM10, 1). -/
def pm_ratio_denom (hour_data : HourlyData) : ℚ :=
  max hour_data.PM10 1

/-- One iteration of the feature loop of process_historical_data
(src/api/main.py lines 630 to 688): the 24 features of hour i. -/
def hour_features (s c : ℚ → ℚ) (now : ℕ → Timestamp)
    (padded : List HourlyData) (i : ℕ) (hour_data : HourlyData) : List ℚ :=
  let hour_timestamp :=
    match hour_data.timestamp with
    | some ts => ts
    | none => now (47 - i)
  let time_features := create_time_features s c hour_timestamp
  let co_norm := hour_data.CO / 3
  let no2_norm := hour_data.NO2 / 100
  let so2_norm := hour_data.SO2 / 50
  let o3_norm := hour_data.O3 / 150
  let pm25_norm := hour_data.PM25 / 100
  let pm10_norm := hour_data.PM10 / 150
  let aqi_norm := hour_data.AQI / 500
  let aqi_avg_24h :=
    (recent_aqi padded i hour_data).sum / ((recent_aqi padded i hour_data).length : ℚ)
  let aqi_trend :=
    (hour_data.AQI - aqi_1h_ago padded i hour_data) / aqi_trend_denom padded i hour_data
  let pm_ratio := hour_data.PM25 / pm_ratio_denom hour_data
  let traffic_pollution := hour_data.CO * hour_data.NO2 / 1000
  [co_norm, no2_norm, so2_norm, o3_norm, pm25_norm, pm10_norm, aqi_norm] ++
    time_features ++
    [aqi_1h_ago padded i hour_data / 500, aqi_24h_ago padded i hour_data / 500,
      pm25_24h_ago padded i hour_data / 100, aqi_avg_24h / 500,
      aqi_trend, pm_ratio, traffic_pollution / 50]

/-- process_historical_data (src/api/main.py lines 574 to 690): pad, then
map the feature loop over enumerate(padded_data[:48]), where the lag reads
index into the full padded list. now k is the current time minus k hours,
used for rows without a parseable timestamp. -/
def process_historical_data (rand : ℕ → ℚ) (s c : ℚ → ℚ) (now : ℕ → Timestamp)
    (historical_data : List HourlyData) : List (List ℚ) :=
  (((pad_historical_data rand historical_data).take 48).enum).map
    (fun p => hour_features s c now (pad_historical_data rand historical_data) p.1 p.2)

/-- generate_mock_data (src/api/main.py lines 237 to 292). env is the
ambient random stream available to the process; the body never reads it,
mirroring that the source consults no random source. s models
x to sin (2 * pi * x), so the daily cycle 1 + 0.3 * sin(2 pi i / 24) is
1 + 0.3 * s (i / 24). latitude and longitude are accepted and ignored,
exactly as in the source. -/
def generate_mock_data (env : ℕ → ℚ) (s : ℚ → ℚ) (latitude longitude : ℚ)
    (hours : ℕ) (now : ℕ → Timestamp) : List HourlyData :=
  (List.range hours).map (fun (i : ℕ) =>
    let variation := 0.7 + ((i % 7 : ℕ) : ℚ) * 0.1
    let daily_cycle := 1 + 0.3 * s ((i : ℚ) / 24)
    let pm25 := 15.5 * variation * daily_cycle
    let pm10 := 28.3 * variation * daily_cycle
    let co := 0.8 * variation * daily_cycle
    let no2 := 22.1 * variation * daily_cycle
    let so2 := 8.2 * variation * daily_cycle
    let o3 := 45.6 * variation * daily_cycle
    ({ CO := co, NO2 := no2, SO2 := so2, O3 := o3, PM25 := pm25, PM10 := pm10,
       AQI := calculate_aqi_from_pollutants pm25 pm10 o3 no2 so2 (co * 1000),
       timestamp := some (now (hours - i - 1)) } : HourlyData))

/-- A fixed timestamp used by concrete instantiations. -/
def fixed_timestamp : Timestamp :=
  { hour := 12, dayofweek := 2, month := 6, year := 2024 }

/-- A constant clock used by concrete instantiations. -/
def fixed_clock : ℕ → Timestamp := fun _ => fixed_timestamp

/-- A random stream drawing 0 forever, used by concrete instantiations. -/
def zero_draws : ℕ → ℚ := fun _ => 0

/-- A stand-in for the sine and cosine parameters in concrete
instantiations. -/
def zero_wave : ℚ → ℚ := fun _ => 0

/-- A sample observation used by concrete instantiations. -/
def sample_hour_data : HourlyData :=
  { CO := 1, NO2 := 2, SO2 := 3, O3 := 4, PM25 := 5, PM10 := 6, AQI := 7,
    timestamp := none }

/-- A series of at least 48 entries is passed through unchanged by the
padding stage. -/
theorem pad_of_full (rand : ℕ → ℚ) {data : List HourlyData}
    (h : 48 ≤ data.length) : pad_historical_data rand data = data := by
  unfold pad_historical_data
  rw [if_neg (by omega)]

/-- A non-empty series shorter than 48 is padded with a synthetic block of
48 minus its length rows at the older end. -/
theorem pad_of_short (rand : ℕ → ℚ) {data : List HourlyData}
    (h2 : 0 < data.length) (h1 : data.length < 48) :
    ∃ syn : List HourlyData, pad_historical_data rand data = syn ++ data ∧
      syn.length = 48 - data.length := by
  unfold pad_historical_data
  rw [if_pos h1, if_pos h2]
  cases hgl : data.getLast? with
  | none =>
    rw [List.getLast?_eq_none_iff] at hgl
    subst hgl
    simp at h2
  | some latest =>
    exact ⟨_, rfl, by simp⟩

/-- The padding stage always yields 48 rows for inputs of length at
most 48. -/
theorem pad_length (rand : ℕ → ℚ) {data : List HourlyData}
    (h : data.length ≤ 48) : (pad_historical_data rand data).length = 48 := by
  rcases Nat.lt_or_ge data.length 48 with h1 | h1
  · rcases Nat.eq_zero_or_pos data.length with h2 | h2
    · have hd : data = [] := List.length_eq_zero.1 h2
      subst hd
      norm_num [pad_historical_data]
    · obtain ⟨syn, he, hl⟩ := pad_of_short rand h2 h1
      rw [he]
      simp only [List.length_append, hl]
      omega
  · rw [pad_of_full rand h1]
    omega

/-- The feature stage always yields 48 rows for inputs of length at
most 48. -/
theorem process_length (rand : ℕ → ℚ) (s c : ℚ → ℚ) (now : ℕ → Timestamp)
    {data : List HourlyData} (h : data.length ≤ 48) :
    (process_historical_data rand s c now data).length = 48 := by
  unfold process_historical_data
  simp [List.enum_eq_enumFrom, List.enumFrom_length, List.length_take,
    pad_length rand h]

/-- C4: for inputs of length 0 to 48, normalization yields exactly 48
entries (and 48 feature rows); for a non-empty input the synthetic rows
form a block inserted before the real data, so the most recent entry of
the padded series is the most recent real entry. -/
theorem C4_normalize (rand : ℕ → ℚ) (s c : ℚ → ℚ) (now : ℕ → Timestamp)
    (data : List HourlyData) (h : data.length ≤ 48) :
    (pad_historical_data rand data).length = 48 ∧
    (process_historical_data rand s c now data).length = 48 ∧
    (data ≠ [] → ∃ syn : List HourlyData,
      pad_historical_data rand data = syn ++ data ∧
      syn.length = 48 - data.length) ∧
    (data ≠ [] →
      (pad_historical_data rand data).getLast? = data.getLast?) := by
  refine ⟨pad_length rand h, process_length rand s c now h, ?_, ?_⟩
  · intro hne
    rcases Nat.lt_or_ge data.length 48 with h1 | h1
    · exact pad_of_short rand (List.length_pos.2 hne) h1
    · exact ⟨[], by rw [pad_of_full rand h1]; rfl,
        by simp only [List.length_nil]; omega⟩
  · intro hne
    rcases Nat.lt_or_ge data.length 48 with h1 | h1
    · obtain ⟨syn, he, _⟩ := pad_of_short rand (List.length_pos.2 hne) h1
      rw [he, List.getLast?_append]
      obtain ⟨x, hx⟩ := Option.isSome_iff_exists.1 (List.getLast?_isSome.2 hne)
      rw [hx]
      rfl
    · rw [pad_of_full rand h1]

/-- Witness for C4 at the one-element input [sample_hour_data]. -/
theorem C4_witness :
    (pad_historical_data zero_draws [sample_hour_data]).length = 48 ∧
    (process_historical_data zero_draws zero_wave zero_wave fixed_clock
        [sample_hour_data]).length = 48 ∧
    (∃ syn : List HourlyData,
      pad_historical_data zero_draws [sample_hour_data] =
        syn ++ [sample_hour_data] ∧ syn.length = 47) ∧
    (pad_historical_data zero_draws [sample_hour_data]).getLast? =
      some sample_hour_data := by
  have h := C4_normalize zero_draws zero_wave zero_wave fixed_clock
    [sample_hour_data] (by norm_num)
  refine ⟨h.1, h.2.1, ?_, ?_⟩
  · obtain ⟨syn, h1, h2⟩ := h.2.2.1 (by simp)
    exact ⟨syn, h1, by simpa using h2⟩
  · rw [h.2.2.2 (by simp)]
    rfl

/-- C8: both guarded denominators of the derived features are floored at
one, for every padded series, every hour index and every row: the AQI
trend divides by max(previous AQI, 1) and the PM ratio by max(PM10, 1). -/
theorem C8_denominator_floors (padded : List HourlyData) (i : ℕ)
    (hour_data : HourlyData) :
    1 ≤ aqi_trend_denom padded i hour_data ∧ 1 ≤ pm_ratio_denom hour_data :=
  ⟨le_max_right _ 1, le_max_right _ 1⟩

/-- Indexed reads below 48 agree between a list and its first-48 prefix. -/
theorem getD_take_48 {l : List HourlyData} {j : ℕ} (hj : j < 48)
    (d : HourlyData) : (l.take 48).getD j d = l.getD j d := by
  rw [List.getD_eq_getElem?_getD, List.getD_eq_getElem?_getD,
    List.getElem?_take_of_lt hj]

/-- For hour indices below 48 the feature row only reads the padded list
at indices below 48, so the first-48 prefix gives the same row. -/
theorem hour_features_take_48 (s c : ℚ → ℚ) (now : ℕ → Timestamp)
    (l : List HourlyData) {i : ℕ} (hi : i < 48) (d : HourlyData) :
    hour_features s c now (l.take 48) i d = hour_features s c now l i d := by
  have h1 : aqi_1h_ago (l.take 48) i d = aqi_1h_ago l i d := by
    unfold aqi_1h_ago
    split_ifs
    · rw [getD_take_48 (by omega) d]
    · rfl
  have h24 : aqi_24h_ago (l.take 48) i d = aqi_24h_ago l i d := by
    unfold aqi_24h_ago
    split_ifs
    · rw [getD_take_48 (by omega) d]
    · rfl
  have hp24 : pm25_24h_ago (l.take 48) i d = pm25_24h_ago l i d := by
    unfold pm25_24h_ago
    split_ifs
    · rw [getD_take_48 (by omega) d]
    · rfl
  have hra : recent_aqi (l.take 48) i d = recent_aqi l i d := by
    unfold recent_aqi
    apply List.map_congr_left
    intro j hj
    rcases List.mem_range'.1 hj with ⟨k, hk, rfl⟩
    rw [getD_take_48 (by omega) d]
  simp only [hour_features, aqi_trend_denom, h1, h24, hp24, hra]

/-- Another sample observation, with every pollutant field equal to 2. -/
def sample_hour_data_two : HourlyData :=
  { CO := 2, NO2 := 2, SO2 := 2, O3 := 2, PM25 := 2, PM10 := 2, AQI := 2,
    timestamp := none }

/-- C2: the claim states that a series of 48 or more observations is cut
to its most recent 48. It is not: the loop runs over padded_data[:48],
the oldest 48. With 1 old row followed by 48 newer rows, dropping the
oldest row (keeping the most recent 48) changes the output. -/
theorem C2_counterexample :
    process_historical_data zero_draws zero_wave zero_wave fixed_clock
        (sample_hour_data :: List.replicate 48 sample_hour_data_two) ≠
      process_historical_data zero_draws zero_wave zero_wave fixed_clock
        ((sample_hour_data :: List.replicate 48 sample_hour_data_two).drop 1) := by
  intro h
  have h0 := congrArg (fun l => (l[0]?).map (fun row => row[0]?)) h
  have hA : (fun l => (l[0]?).map (fun row => row[0]?))
      (process_historical_data zero_draws zero_wave zero_wave fixed_clock
        (sample_hour_data :: List.replicate 48 sample_hour_data_two)) =
      some (some (sample_hour_data.CO / 3)) := rfl
  have hB : (fun l => (l[0]?).map (fun row => row[0]?))
      (process_historical_data zero_draws zero_wave zero_wave fixed_clock
        ((sample_hour_data :: List.replicate 48 sample_hour_data_two).drop 1)) =
      some (some (sample_hour_data_two.CO / 3)) := rfl
  rw [hA, hB] at h0
  simp only [Option.some.injEq] at h0
  norm_num [sample_hour_data, sample_hour_data_two] at h0

/-- C2 amended: for every input of length at least 48,
process_historical_data builds its 48 processed hours from exactly the
first (oldest) 48 observations, dropping the newer entries. -/
theorem C2_amended (rand : ℕ → ℚ) (s c : ℚ → ℚ) (now : ℕ → Timestamp)
    (data : List HourlyData) (h : 48 ≤ data.length) :
    process_historical_data rand s c now data =
      process_historical_data rand s c now (data.take 48) := by
  have htk : (data.take 48).length = 48 := by
    simp only [List.length_take]
    omega
  unfold process_historical_data
  rw [pad_of_full rand h, pad_of_full rand (le_of_eq htk.symm),
    List.take_of_length_le (le_of_eq htk)]
  apply List.ext_getElem?
  intro i
  simp only [List.getElem?_map, List.enum_eq_enumFrom, List.getElem?_enumFrom]
  cases hx : (data.take 48)[i]? with
  | none => rfl
  | some d =>
    simp only [Option.map_some', Nat.zero_add]
    have hi : i < 48 := by
      obtain ⟨hlt, _⟩ := List.getElem?_eq_some_iff.1 hx
      rw [htk] at hlt
      exact hlt
    exact congrArg some (hour_features_take_48 s c now data hi d).symm

/-- Witness for C2 amended at a concrete 49-row series: 49 copies of
sample_hour_data. -/
theorem C2_witness :
    process_historical_data zero_draws zero_wave zero_wave fixed_clock
        (List.replicate 49 sample_hour_data) =
      process_historical_data zero_draws zero_wave zero_wave fixed_clock
        ((List.replicate 49 sample_hour_data).take 48) :=
  C2_amended zero_draws zero_wave zero_wave fixed_clock
    (List.replicate 49 sample_hour_data) (by simp)

/-- C9: generate_mock_data never reads the ambient random stream, so for
fixed coordinates, hour count and current time two calls agree exactly; it
returns one row per requested hour; and every row carries an AQI recomputed
from its own pollutants with CO rescaled by 1000, with PM2.5 following the
fixed pattern 15.5 * (0.7 + (i mod 7) * 0.1) * (1 + 0.3 * sin(2 pi i / 24)). -/
theorem C9_mock_deterministic (env1 env2 : ℕ → ℚ) (s : ℚ → ℚ) (lat lon : ℚ)
    (hours : ℕ) (now : ℕ → Timestamp) :
    generate_mock_data env1 s lat lon hours now =
      generate_mock_data env2 s lat lon hours now ∧
    (generate_mock_data env1 s lat lon hours now).length = hours ∧
    (∀ (i : ℕ) (r : HourlyData),
      (generate_mock_data env1 s lat lon hours now)[i]? = some r →
        r.AQI = calculate_aqi_from_pollutants r.PM25 r.PM10 r.O3 r.NO2 r.SO2
          (r.CO * 1000) ∧
        r.PM25 = 15.5 * (0.7 + ((i % 7 : ℕ) : ℚ) * 0.1) *
          (1 + 0.3 * s ((i : ℚ) / 24))) := by
  refine ⟨rfl, by simp [generate_mock_data], ?_⟩
  intro i r hr
  simp only [generate_mock_data, List.getElem?_map] at hr
  cases hx : (List.range hours)[i]? with
  | none => rw [hx] at hr; simp at hr
  | some a =>
    rw [hx] at hr
    obtain ⟨hlt, ha⟩ := List.getElem?_eq_some_iff.1 hx
    rw [List.getElem_range] at ha
    subst ha
    simp only [Option.map_some', Option.some.injEq] at hr
    subst hr
    exact ⟨rfl, rfl⟩

/-- Witness for C9 at two distinct random streams, 2 hours, a fixed clock. -/
theorem C9_witness :
    generate_mock_data zero_draws zero_wave 0 0 2 fixed_clock =
      generate_mock_data (fun i => (i : ℚ)) zero_wave 0 0 2 fixed_clock ∧
    (generate_mock_data zero_draws zero_wave 0 0 2 fixed_clock).length = 2 ∧
    (∃ r : HourlyData,
      (generate_mock_data zero_draws zero_wave 0 0 2 fixed_clock)[1]? = some r ∧
      r.AQI = calculate_aqi_from_pollutants r.PM25 r.PM10 r.O3 r.NO2 r.SO2
        (r.CO * 1000)) := by
  have h := C9_mock_deterministic zero_draws (fun i => (i : ℚ)) zero_wave 0 0 2
    fixed_clock
  exact ⟨h.1, h.2.1, ⟨_, rfl, (h.2.2 1 _ rfl).1⟩⟩
